import Mathlib

set_option maxRecDepth 100000

/-!
Verification of the resumable streaming transcription/translation pipeline
(`main.py`).  The stateful Python code is shallowly embedded: the
`ResumableMicrophoneStream` object becomes the `Stream` structure, each
mutation site becomes an explicit state-passing function, and Python `int`
becomes `ℤ`.  The two float expressions of the source (the bridging
arithmetic and the result-end-time extraction) are ratios of integers; they
are embedded as exact fractions `num/den` with `pyRoundFrac` (Python
`round`, i.e. round half to even) and `pyIntFrac` (Python `int()`, i.e.
truncation toward zero) applied to the exact value.
-/

namespace Limbus

/-- Constant `STREAMING_LIMIT = 240000` (4 minutes, in ms), from `main.py`. -/
def STREAMING_LIMIT : ℤ := 240000

/-- Python 3 `round (num/den)` for `den > 0`: round half to even
(round half to even), computed from floor division and remainder. -/
def pyRoundFrac (num den : ℤ) : ℤ :=
  let q := num.fdiv den
  let r := num.fmod den
  if 2 * r < den then q
  else if den < 2 * r then q + 1
  else if q % 2 = 0 then q else q + 1

/-- Python `int (num/den)` for `den > 0`: truncation toward zero. -/
def pyIntFrac (num den : ℤ) : ℤ :=
  if 0 ≤ num then num.fdiv den else -((-num).fdiv den)

/-- The mutable state of `ResumableMicrophoneStream` (`main.py`, `__init__`).
Audio chunks are opaque; we represent them by `ℕ`.  The internal queue
`self._buff` holds chunks or the `None` end-of-stream marker, hence
`List (Option ℕ)`.  `self.audio_input` can also receive the `None` marker
(line `self.audio_input.append(chunk)` runs before the `None` check), hence
the same element type.  Wall-clock fields (`start_time`) are real-time and
are not part of the embedded state. Defaults are the `__init__` values. -/
structure Stream where
  buff : List (Option ℕ) := []
  closed : Bool := true
  restart_counter : ℤ := 0
  audio_input : List (Option ℕ) := []
  last_audio_input : List (Option ℕ) := []
  result_end_time : ℤ := 0
  is_final_end_time : ℤ := 0
  final_request_end_time : ℤ := 0
  bridging_offset : ℤ := 0
  last_transcript_was_final : Bool := false
  new_stream : Bool := true
deriving DecidableEq

/-- Model of `__enter__`: opens the stream. -/
def enterStream (s : Stream) : Stream :=
  { s with closed := false }

/-- Model of `__exit__`: closes the stream and signals the generator with `None`. -/
def exitStream (s : Stream) : Stream :=
  { s with closed := true, buff := s.buff ++ [none] }

/-- Model of `_fill_buffer`: the capture callback.  It unconditionally enqueues the
incoming chunk; there is no check of `self.closed` in the source. -/
def fill_buffer (s : Stream) (in_data : ℕ) : Stream :=
  { s with buff := s.buff ++ [some in_data] }

/-- One transcription result as consumed by `listen_print_loop`:
top alternative transcript, `is_final`, and the `result_end_time`
protobuf fields (`seconds`, `microseconds`). -/
structure RecResult where
  transcript : String
  is_final : Bool
  seconds : ℤ
  micros : ℤ
deriving DecidableEq

/-- Lines 329-338 of `main.py`: extract the engine-relative end time in ms,
`int(result_seconds * 1000 + result_micros / 1000)`.  The Python truthiness
guards (`if result.result_end_time.seconds:`) are kept literally; they are
the identity on integers.  The float value `secs*1000 + micros/1000` equals
the exact fraction `(secs*1000000 + micros) / 1000`. -/
def retOf (r : RecResult) : ℤ :=
  pyIntFrac ((if r.seconds = 0 then 0 else r.seconds) * 1000000
              + (if r.micros = 0 then 0 else r.micros)) 1000

/-- Codepoint intervals of the Unicode characters that Python 3 counts as
alphanumeric (`str.isalnum`, i.e. the Alphabetic, Decimal, Digit and
Numeric properties), generated from the Unicode 14.0 database used by
CPython 3.11.  The `re` module word class `\w` is exactly these plus the
underscore, and `\b` is a transition between `\w` and non-`\w`. -/
def reWordRanges : List (Nat × Nat) := [
  (48, 57), (65, 90), (97, 122), (170, 170), (178, 179), (181, 181),
  (185, 186), (188, 190), (192, 214), (216, 246), (248, 705), (710, 721),
  (736, 740), (748, 748), (750, 750), (880, 884), (886, 887), (890, 893),
  (895, 895), (902, 902), (904, 906), (908, 908), (910, 929), (931, 1013),
  (1015, 1153), (1162, 1327), (1329, 1366), (1369, 1369), (1376, 1416), (1488, 1514),
  (1519, 1522), (1568, 1610), (1632, 1641), (1646, 1647), (1649, 1747), (1749, 1749),
  (1765, 1766), (1774, 1788), (1791, 1791), (1808, 1808), (1810, 1839), (1869, 1957),
  (1969, 1969), (1984, 2026), (2036, 2037), (2042, 2042), (2048, 2069), (2074, 2074),
  (2084, 2084), (2088, 2088), (2112, 2136), (2144, 2154), (2160, 2183), (2185, 2190),
  (2208, 2249), (2308, 2361), (2365, 2365), (2384, 2384), (2392, 2401), (2406, 2415),
  (2417, 2432), (2437, 2444), (2447, 2448), (2451, 2472), (2474, 2480), (2482, 2482),
  (2486, 2489), (2493, 2493), (2510, 2510), (2524, 2525), (2527, 2529), (2534, 2545),
  (2548, 2553), (2556, 2556), (2565, 2570), (2575, 2576), (2579, 2600), (2602, 2608),
  (2610, 2611), (2613, 2614), (2616, 2617), (2649, 2652), (2654, 2654), (2662, 2671),
  (2674, 2676), (2693, 2701), (2703, 2705), (2707, 2728), (2730, 2736), (2738, 2739),
  (2741, 2745), (2749, 2749), (2768, 2768), (2784, 2785), (2790, 2799), (2809, 2809),
  (2821, 2828), (2831, 2832), (2835, 2856), (2858, 2864), (2866, 2867), (2869, 2873),
  (2877, 2877), (2908, 2909), (2911, 2913), (2918, 2927), (2929, 2935), (2947, 2947),
  (2949, 2954), (2958, 2960), (2962, 2965), (2969, 2970), (2972, 2972), (2974, 2975),
  (2979, 2980), (2984, 2986), (2990, 3001), (3024, 3024), (3046, 3058), (3077, 3084),
  (3086, 3088), (3090, 3112), (3114, 3129), (3133, 3133), (3160, 3162), (3165, 3165),
  (3168, 3169), (3174, 3183), (3192, 3198), (3200, 3200), (3205, 3212), (3214, 3216),
  (3218, 3240), (3242, 3251), (3253, 3257), (3261, 3261), (3293, 3294), (3296, 3297),
  (3302, 3311), (3313, 3314), (3332, 3340), (3342, 3344), (3346, 3386), (3389, 3389),
  (3406, 3406), (3412, 3414), (3416, 3425), (3430, 3448), (3450, 3455), (3461, 3478),
  (3482, 3505), (3507, 3515), (3517, 3517), (3520, 3526), (3558, 3567), (3585, 3632),
  (3634, 3635), (3648, 3654), (3664, 3673), (3713, 3714), (3716, 3716), (3718, 3722),
  (3724, 3747), (3749, 3749), (3751, 3760), (3762, 3763), (3773, 3773), (3776, 3780),
  (3782, 3782), (3792, 3801), (3804, 3807), (3840, 3840), (3872, 3891), (3904, 3911),
  (3913, 3948), (3976, 3980), (4096, 4138), (4159, 4169), (4176, 4181), (4186, 4189),
  (4193, 4193), (4197, 4198), (4206, 4208), (4213, 4225), (4238, 4238), (4240, 4249),
  (4256, 4293), (4295, 4295), (4301, 4301), (4304, 4346), (4348, 4680), (4682, 4685),
  (4688, 4694), (4696, 4696), (4698, 4701), (4704, 4744), (4746, 4749), (4752, 4784),
  (4786, 4789), (4792, 4798), (4800, 4800), (4802, 4805), (4808, 4822), (4824, 4880),
  (4882, 4885), (4888, 4954), (4969, 4988), (4992, 5007), (5024, 5109), (5112, 5117),
  (5121, 5740), (5743, 5759), (5761, 5786), (5792, 5866), (5870, 5880), (5888, 5905),
  (5919, 5937), (5952, 5969), (5984, 5996), (5998, 6000), (6016, 6067), (6103, 6103),
  (6108, 6108), (6112, 6121), (6128, 6137), (6160, 6169), (6176, 6264), (6272, 6276),
  (6279, 6312), (6314, 6314), (6320, 6389), (6400, 6430), (6470, 6509), (6512, 6516),
  (6528, 6571), (6576, 6601), (6608, 6618), (6656, 6678), (6688, 6740), (6784, 6793),
  (6800, 6809), (6823, 6823), (6917, 6963), (6981, 6988), (6992, 7001), (7043, 7072),
  (7086, 7141), (7168, 7203), (7232, 7241), (7245, 7293), (7296, 7304), (7312, 7354),
  (7357, 7359), (7401, 7404), (7406, 7411), (7413, 7414), (7418, 7418), (7424, 7615),
  (7680, 7957), (7960, 7965), (7968, 8005), (8008, 8013), (8016, 8023), (8025, 8025),
  (8027, 8027), (8029, 8029), (8031, 8061), (8064, 8116), (8118, 8124), (8126, 8126),
  (8130, 8132), (8134, 8140), (8144, 8147), (8150, 8155), (8160, 8172), (8178, 8180),
  (8182, 8188), (8304, 8305), (8308, 8313), (8319, 8329), (8336, 8348), (8450, 8450),
  (8455, 8455), (8458, 8467), (8469, 8469), (8473, 8477), (8484, 8484), (8486, 8486),
  (8488, 8488), (8490, 8493), (8495, 8505), (8508, 8511), (8517, 8521), (8526, 8526),
  (8528, 8585), (9312, 9371), (9450, 9471), (10102, 10131), (11264, 11492), (11499, 11502),
  (11506, 11507), (11517, 11517), (11520, 11557), (11559, 11559), (11565, 11565), (11568, 11623),
  (11631, 11631), (11648, 11670), (11680, 11686), (11688, 11694), (11696, 11702), (11704, 11710),
  (11712, 11718), (11720, 11726), (11728, 11734), (11736, 11742), (11823, 11823), (12293, 12295),
  (12321, 12329), (12337, 12341), (12344, 12348), (12353, 12438), (12445, 12447), (12449, 12538),
  (12540, 12543), (12549, 12591), (12593, 12686), (12690, 12693), (12704, 12735), (12784, 12799),
  (12832, 12841), (12872, 12879), (12881, 12895), (12928, 12937), (12977, 12991), (13312, 19903),
  (19968, 42124), (42192, 42237), (42240, 42508), (42512, 42539), (42560, 42606), (42623, 42653),
  (42656, 42735), (42775, 42783), (42786, 42888), (42891, 42954), (42960, 42961), (42963, 42963),
  (42965, 42969), (42994, 43009), (43011, 43013), (43015, 43018), (43020, 43042), (43056, 43061),
  (43072, 43123), (43138, 43187), (43216, 43225), (43250, 43255), (43259, 43259), (43261, 43262),
  (43264, 43301), (43312, 43334), (43360, 43388), (43396, 43442), (43471, 43481), (43488, 43492),
  (43494, 43518), (43520, 43560), (43584, 43586), (43588, 43595), (43600, 43609), (43616, 43638),
  (43642, 43642), (43646, 43695), (43697, 43697), (43701, 43702), (43705, 43709), (43712, 43712),
  (43714, 43714), (43739, 43741), (43744, 43754), (43762, 43764), (43777, 43782), (43785, 43790),
  (43793, 43798), (43808, 43814), (43816, 43822), (43824, 43866), (43868, 43881), (43888, 44002),
  (44016, 44025), (44032, 55203), (55216, 55238), (55243, 55291), (63744, 64109), (64112, 64217),
  (64256, 64262), (64275, 64279), (64285, 64285), (64287, 64296), (64298, 64310), (64312, 64316),
  (64318, 64318), (64320, 64321), (64323, 64324), (64326, 64433), (64467, 64829), (64848, 64911),
  (64914, 64967), (65008, 65019), (65136, 65140), (65142, 65276), (65296, 65305), (65313, 65338),
  (65345, 65370), (65382, 65470), (65474, 65479), (65482, 65487), (65490, 65495), (65498, 65500),
  (65536, 65547), (65549, 65574), (65576, 65594), (65596, 65597), (65599, 65613), (65616, 65629),
  (65664, 65786), (65799, 65843), (65856, 65912), (65930, 65931), (66176, 66204), (66208, 66256),
  (66273, 66299), (66304, 66339), (66349, 66378), (66384, 66421), (66432, 66461), (66464, 66499),
  (66504, 66511), (66513, 66517), (66560, 66717), (66720, 66729), (66736, 66771), (66776, 66811),
  (66816, 66855), (66864, 66915), (66928, 66938), (66940, 66954), (66956, 66962), (66964, 66965),
  (66967, 66977), (66979, 66993), (66995, 67001), (67003, 67004), (67072, 67382), (67392, 67413),
  (67424, 67431), (67456, 67461), (67463, 67504), (67506, 67514), (67584, 67589), (67592, 67592),
  (67594, 67637), (67639, 67640), (67644, 67644), (67647, 67669), (67672, 67702), (67705, 67742),
  (67751, 67759), (67808, 67826), (67828, 67829), (67835, 67867), (67872, 67897), (67968, 68023),
  (68028, 68047), (68050, 68096), (68112, 68115), (68117, 68119), (68121, 68149), (68160, 68168),
  (68192, 68222), (68224, 68255), (68288, 68295), (68297, 68324), (68331, 68335), (68352, 68405),
  (68416, 68437), (68440, 68466), (68472, 68497), (68521, 68527), (68608, 68680), (68736, 68786),
  (68800, 68850), (68858, 68899), (68912, 68921), (69216, 69246), (69248, 69289), (69296, 69297),
  (69376, 69415), (69424, 69445), (69457, 69460), (69488, 69505), (69552, 69579), (69600, 69622),
  (69635, 69687), (69714, 69743), (69745, 69746), (69749, 69749), (69763, 69807), (69840, 69864),
  (69872, 69881), (69891, 69926), (69942, 69951), (69956, 69956), (69959, 69959), (69968, 70002),
  (70006, 70006), (70019, 70066), (70081, 70084), (70096, 70106), (70108, 70108), (70113, 70132),
  (70144, 70161), (70163, 70187), (70272, 70278), (70280, 70280), (70282, 70285), (70287, 70301),
  (70303, 70312), (70320, 70366), (70384, 70393), (70405, 70412), (70415, 70416), (70419, 70440),
  (70442, 70448), (70450, 70451), (70453, 70457), (70461, 70461), (70480, 70480), (70493, 70497),
  (70656, 70708), (70727, 70730), (70736, 70745), (70751, 70753), (70784, 70831), (70852, 70853),
  (70855, 70855), (70864, 70873), (71040, 71086), (71128, 71131), (71168, 71215), (71236, 71236),
  (71248, 71257), (71296, 71338), (71352, 71352), (71360, 71369), (71424, 71450), (71472, 71483),
  (71488, 71494), (71680, 71723), (71840, 71922), (71935, 71942), (71945, 71945), (71948, 71955),
  (71957, 71958), (71960, 71983), (71999, 71999), (72001, 72001), (72016, 72025), (72096, 72103),
  (72106, 72144), (72161, 72161), (72163, 72163), (72192, 72192), (72203, 72242), (72250, 72250),
  (72272, 72272), (72284, 72329), (72349, 72349), (72368, 72440), (72704, 72712), (72714, 72750),
  (72768, 72768), (72784, 72812), (72818, 72847), (72960, 72966), (72968, 72969), (72971, 73008),
  (73030, 73030), (73040, 73049), (73056, 73061), (73063, 73064), (73066, 73097), (73112, 73112),
  (73120, 73129), (73440, 73458), (73648, 73648), (73664, 73684), (73728, 74649), (74752, 74862),
  (74880, 75075), (77712, 77808), (77824, 78894), (82944, 83526), (92160, 92728), (92736, 92766),
  (92768, 92777), (92784, 92862), (92864, 92873), (92880, 92909), (92928, 92975), (92992, 92995),
  (93008, 93017), (93019, 93025), (93027, 93047), (93053, 93071), (93760, 93846), (93952, 94026),
  (94032, 94032), (94099, 94111), (94176, 94177), (94179, 94179), (94208, 100343), (100352, 101589),
  (101632, 101640), (110576, 110579), (110581, 110587), (110589, 110590), (110592, 110882), (110928, 110930),
  (110948, 110951), (110960, 111355), (113664, 113770), (113776, 113788), (113792, 113800), (113808, 113817),
  (119520, 119539), (119648, 119672), (119808, 119892), (119894, 119964), (119966, 119967), (119970, 119970),
  (119973, 119974), (119977, 119980), (119982, 119993), (119995, 119995), (119997, 120003), (120005, 120069),
  (120071, 120074), (120077, 120084), (120086, 120092), (120094, 120121), (120123, 120126), (120128, 120132),
  (120134, 120134), (120138, 120144), (120146, 120485), (120488, 120512), (120514, 120538), (120540, 120570),
  (120572, 120596), (120598, 120628), (120630, 120654), (120656, 120686), (120688, 120712), (120714, 120744),
  (120746, 120770), (120772, 120779), (120782, 120831), (122624, 122654), (123136, 123180), (123191, 123197),
  (123200, 123209), (123214, 123214), (123536, 123565), (123584, 123627), (123632, 123641), (124896, 124902),
  (124904, 124907), (124909, 124910), (124912, 124926), (124928, 125124), (125127, 125135), (125184, 125251),
  (125259, 125259), (125264, 125273), (126065, 126123), (126125, 126127), (126129, 126132), (126209, 126253),
  (126255, 126269), (126464, 126467), (126469, 126495), (126497, 126498), (126500, 126500), (126503, 126503),
  (126505, 126514), (126516, 126519), (126521, 126521), (126523, 126523), (126530, 126530), (126535, 126535),
  (126537, 126537), (126539, 126539), (126541, 126543), (126545, 126546), (126548, 126548), (126551, 126551),
  (126553, 126553), (126555, 126555), (126557, 126557), (126559, 126559), (126561, 126562), (126564, 126564),
  (126567, 126570), (126572, 126578), (126580, 126583), (126585, 126588), (126590, 126590), (126592, 126601),
  (126603, 126619), (126625, 126627), (126629, 126633), (126635, 126651), (127232, 127244), (130032, 130041),
  (131072, 173791), (173824, 177976), (177984, 178205), (178208, 183969), (183984, 191456), (194560, 195101),
  (196608, 201546)]

/-- Word character for the regex `\b` boundary: underscore or a Unicode
alphanumeric, per the `reWordRanges` table. -/
def isWordChar (c : Char) : Bool :=
  c == '_' || reWordRanges.any (fun p => p.1 ≤ c.toNat && c.toNat ≤ p.2)

/-- Case-insensitive match of one text character against a lowercase ASCII
pattern letter, as `re.IGNORECASE` performs it: the ASCII case pair, plus
the special dotted/dotless i equivalences (U+0130 and U+0131 match `i`);
no other codepoint has a case mapping onto the keyword letters. -/
def reLetterMatches (c k : Char) : Bool :=
  c.toLower == k || (k == 'i' && (c.toNat == 304 || c.toNat == 305))

/-- Case-insensitive literal match of `kw` against a prefix of `cs`,
returning the remainder on success. -/
def matchKw (kw : List Char) (cs : List Char) : Option (List Char) :=
  match kw, cs with
  | [], rest => some rest
  | _ :: _, [] => none
  | k :: ks, c :: rest => if reLetterMatches c k then matchKw ks rest else none

/-- The `\b` boundary after the keyword: end of string or a non-word char. -/
def boundaryOk : Option (List Char) → Bool
  | none => false
  | some [] => true
  | some (c :: _) => !isWordChar c

/-- Scan for `\b(exit|quit)\b` (case-insensitive): a match may start at any
position whose preceding character is not a word character. -/
def stopScan (prevIsWord : Bool) (cs : List Char) : Bool :=
  match cs with
  | [] => false
  | c :: rest =>
    ((!prevIsWord)
      && (boundaryOk (matchKw ("exit".toList) cs)
          || boundaryOk (matchKw ("quit".toList) cs)))
    || stopScan (isWordChar c) rest

/-- Model of `re.search(r"\b(exit|quit)\b", transcript, re.I)` from `main.py` line 361. -/
def containsStopWord (t : String) : Bool :=
  stopScan false t.toList

/-- Result of processing one response in `listen_print_loop`
(lines 329-371): the updated stream state, the corrected time, and the
job handed to the translation pool for a final result. -/
structure ProcOut where
  stream : Stream
  corrected_time : ℤ
  submitted : Option (String × ℤ)
deriving DecidableEq

/-- Lines 329-371 of `listen_print_loop`: set `result_end_time`, compute
`corrected_time = result_end_time - bridging_offset +
STREAMING_LIMIT * restart_counter`; on a final result record
`is_final_end_time`, submit the `{transcript, corrected_time}` job, and
close the stream when the transcript contains a stop word. -/
def processResult (s : Stream) (r : RecResult) : ProcOut :=
  let ret : ℤ := retOf r
  let s1 : Stream := { s with result_end_time := ret }
  let corrected : ℤ :=
    ret - s1.bridging_offset + STREAMING_LIMIT * s1.restart_counter
  if r.is_final = true then
    let s2 : Stream :=
      { s1 with is_final_end_time := ret, last_transcript_was_final := true }
    let s3 : Stream :=
      if containsStopWord r.transcript = true then { s2 with closed := true } else s2
    { stream := s3, corrected_time := corrected,
      submitted := some (r.transcript, corrected) }
  else
    { stream := { s1 with last_transcript_was_final := false },
      corrected_time := corrected, submitted := none }

/-- Lines 459-469 of `main`: after `listen_print_loop` returns, roll
`final_request_end_time` (only when `result_end_time > 0`), reset
`result_end_time`, swap the audio history buffers, increment the restart
counter and flag a new stream. -/
def restartStep (s : Stream) : Stream :=
  if s.result_end_time > 0 then
    { s with final_request_end_time := s.is_final_end_time,
             result_end_time := 0,
             last_audio_input := s.audio_input,
             audio_input := [],
             restart_counter := s.restart_counter + 1,
             new_stream := true }
  else
    { s with result_end_time := 0,
             last_audio_input := s.audio_input,
             audio_input := [],
             restart_counter := s.restart_counter + 1,
             new_stream := true }

/-- Lines 155-177 of `ResumableMicrophoneStream.generator`: on the first
iteration of a new stream with a nonempty previous-segment history, clamp
`bridging_offset` into `[0, final_request_end_time]`, compute the replay
start index `chunks_from_ms`, recompute `bridging_offset`, and return the
replayed tail `last_audio_input[chunks_from_ms:]` as the initial data.
With `n = len(last_audio_input)` and `chunk_time = STREAMING_LIMIT / n`
(a nonzero float exactly when `STREAMING_LIMIT ≠ 0`, since `n ≥ 1` in this
branch), the float expressions are the exact fractions
`(F - b) / chunk_time = (F - b) * n / STREAMING_LIMIT` and
`(n - chunks_from_ms) * chunk_time = (n - chunks_from_ms) * STREAMING_LIMIT / n`.
`chunks_from_ms ≥ 0` always holds (the clamped offset is at most `F`), so
the Python `range(chunks_from_ms, n)` is the plain suffix. -/
def bridgingStep (s : Stream) : Stream × List (Option ℕ) :=
  if s.new_stream ∧ s.last_audio_input ≠ [] then
    let n : ℤ := (s.last_audio_input.length : ℤ)
    if STREAMING_LIMIT ≠ 0 then
      let b1 : ℤ := if s.bridging_offset < 0 then 0 else s.bridging_offset
      let b2 : ℤ :=
        if b1 > s.final_request_end_time then s.final_request_end_time else b1
      let chunks_from_ms : ℤ :=
        pyRoundFrac ((s.final_request_end_time - b2) * n) STREAMING_LIMIT
      let b3 : ℤ := pyRoundFrac ((n - chunks_from_ms) * STREAMING_LIMIT) n
      ({ s with bridging_offset := b3, new_stream := false },
        s.last_audio_input.drop chunks_from_ms.toNat)
    else
      ({ s with new_stream := false }, [])
  else (s, [])

/-- The inner non-blocking drain loop of `generator` (lines 189-199):
consume queued chunks until the queue is empty or a `None` marker is met.
Returns the consumed data chunks (also appended to `audio_input`), the
remaining queue, and whether `None` was met (whereupon the generator
returns without yielding). -/
def drainLoop : List (Option ℕ) → List (Option ℕ) × List (Option ℕ) × Bool
  | [] => ([], [], false)
  | none :: rest => ([], rest, true)
  | some c :: rest =>
    let r := drainLoop rest
    (some c :: r.1, r.2.1, r.2.2)

/-- One iteration of the `generator` loop, from the `while not self.closed`
test to the `yield`. -/
inductive GenOutcome where
  | terminated (s : Stream)
  | blocked (s : Stream)
  | pyError (s : Stream)
  | yielded (data : List (Option ℕ)) (s : Stream)
deriving DecidableEq

/-- Lines 152-201 of `ResumableMicrophoneStream.generator`: stop when
`closed`; run the bridging block; block on an empty queue; append the
blocking-get chunk to `audio_input` (even when it is `None`) and terminate
on `None`; drain the queue non-blocking; yield the joined data.
`b"".join(data)` raises when a replayed element is `None`, hence `pyError`
when the yielded data contains the marker. -/
def generatorStep (s : Stream) : GenOutcome :=
  if s.closed = true then .terminated s
  else
    let p := bridgingStep s
    match p.1.buff with
    | [] => .blocked p.1
    | chunk :: rest =>
      let s2 : Stream :=
        { p.1 with buff := rest, audio_input := p.1.audio_input ++ [chunk] }
      match chunk with
      | none => .terminated s2
      | some c =>
        let d := drainLoop rest
        let s3 : Stream :=
          { s2 with buff := d.2.1, audio_input := s2.audio_input ++ d.1 }
        if d.2.2 = true then .terminated s3
        else
          let data := p.2 ++ [some c] ++ d.1
          if data.all Option.isSome then .yielded data s3 else .pyError s3

/-- ANSI color prefixes written before console lines (`main.py`). -/
def RED : String := "\x1b[0;31m"

/-- Yellow color prefix. -/
def YELLOW : String := "\x1b[0;33m"

/-- The environment configuration read at module load:
`API_BASE_URL = os.environ.get("API_BASE_URL")` and likewise `API_KEY`
(`None` when unset). -/
structure Config where
  api_base_url : Option String
  api_key : Option String

/-- Python truthiness of an optional string: `None` and `""` are falsy. -/
def pyTruthy : Option String → Bool
  | none => false
  | some s => !s.isEmpty

/-- The JSON body of the delivery POST (`main.py` lines 272-276). -/
structure Payload where
  timestamp : ℤ
  translation : String
  korean_text : String
deriving DecidableEq

/-- Outcome of the HTTP collaborator: a response with a status code, or a
raised exception (any `Exception`, carrying its string rendering). -/
inductive HttpResult where
  | response (status : ℤ)
  | exn (msg : String)
deriving DecidableEq

/-- Observable effects of one `print_translation` call: console writes in
order, and the POST attempts made, each with its payload and headers. -/
structure DeliveryOutcome where
  writes : List String
  posts : List (Payload × List (String × String))
deriving DecidableEq

/-- Model of `print_translation` (lines 255-292).  `current_timestamp` is the value
`int(time.time() * 1000)` read at the start of the call; the HTTP
collaborator is abstracted as a function from the payload to its outcome.
The `try`/`except Exception` block is embedded as the total match on
`HttpResult`: both branches return normally, so no exception escapes. -/
def print_translation (cfg : Config) (current_timestamp : ℤ)
    (http : Payload → HttpResult)
    (translated_text : String) (korean_text : String) (timestamp : ℤ) :
    DeliveryOutcome :=
  let w0 : List String :=
    [YELLOW,
     toString timestamp ++ ": 韓国語: " ++ korean_text ++ "\n",
     toString timestamp ++ ": 翻訳: " ++ translated_text ++ "\n"]
  if pyTruthy cfg.api_base_url = true then
    let headers : List (String × String) :=
      if pyTruthy cfg.api_key = true then
        [("X-API-Key", cfg.api_key.getD "")]
      else []
    let payload : Payload :=
      { timestamp := current_timestamp, translation := translated_text,
        korean_text := korean_text }
    match http payload with
    | .response status =>
      if status ≠ 200 then
        { writes := w0 ++
            [RED, "エラー: 送信失敗（ステータスコード: " ++ toString status ++ "）\n"],
          posts := [(payload, headers)] }
      else
        { writes := w0, posts := [(payload, headers)] }
    | .exn e =>
      { writes := w0 ++
          [RED, "エラー: 送信中に例外が発生: " ++ e ++ "\n"],
        posts := [(payload, headers)] }
  else
    { writes := w0, posts := [] }

/-- Model of `translate_text` (lines 204-252): invoke the translation collaborator;
on any exception return the sentinel `"翻訳エラー: " + str(e)` instead. -/
def translate_text (collab : String → Except String String) (text : String) :
    String :=
  match collab text with
  | .ok t => t
  | .error e => "翻訳エラー: " ++ e

/-- The job submitted to the translator pool for a finalized transcript
(lines 352-356): `print_translation(translate_text(t), t, ts)`. -/
def finalizeJob (cfg : Config) (collab : String → Except String String)
    (current_timestamp : ℤ) (http : Payload → HttpResult)
    (transcript : String) (ts : ℤ) : DeliveryOutcome :=
  print_translation cfg current_timestamp http
    (translate_text collab transcript) transcript ts

/-- Rounding error bound: `pyRoundFrac num den` differs from the exact ratio `num/den` by at most
one half, stated multiplicatively over `ℤ`: the doubled product
`2*den*(pyRoundFrac num den)` lies within `den` of `2*num`. -/
theorem pyRoundFrac_bounds (a b : ℤ) (hb : 0 < b) :
    2 * a - b ≤ 2 * b * pyRoundFrac a b ∧ 2 * b * pyRoundFrac a b ≤ 2 * a + b := by
  have hqr : b * a.fdiv b + a.fmod b = a := Int.fdiv_add_fmod a b
  have hr0 : 0 ≤ a.fmod b := by
    rw [Int.fmod_eq_emod a hb.le]
    exact Int.emod_nonneg a (ne_of_gt hb)
  have hrb : a.fmod b < b := by
    rw [Int.fmod_eq_emod a hb.le]
    exact Int.emod_lt_of_pos a hb
  simp only [pyRoundFrac]
  split_ifs with h1 h2 h3 <;> constructor <;> linarith

/-- Projection fact: `processResult` leaves `bridging_offset` unchanged. -/
theorem processResult_bridging (s : Stream) (r : RecResult) :
    (processResult s r).stream.bridging_offset = s.bridging_offset := by
  simp only [processResult]
  split_ifs <;> rfl

/-- Projection fact: `processResult` leaves `restart_counter` unchanged. -/
theorem processResult_counter (s : Stream) (r : RecResult) :
    (processResult s r).stream.restart_counter = s.restart_counter := by
  simp only [processResult]
  split_ifs <;> rfl

/-- Projection fact: `processResult` leaves `audio_input` unchanged. -/
theorem processResult_audio (s : Stream) (r : RecResult) :
    (processResult s r).stream.audio_input = s.audio_input := by
  simp only [processResult]
  split_ifs <;> rfl

/-- Projection fact: `processResult` sets `result_end_time` to the extracted end time. -/
theorem processResult_ret (s : Stream) (r : RecResult) :
    (processResult s r).stream.result_end_time = retOf r := by
  simp only [processResult]
  split_ifs <;> rfl

/-- On a final result, `processResult` records `is_final_end_time`. -/
theorem processResult_final_end (s : Stream) (r : RecResult)
    (h : r.is_final = true) :
    (processResult s r).stream.is_final_end_time = retOf r := by
  simp only [processResult, h]
  split_ifs <;> rfl

/-- The corrected time computed by `processResult`. -/
theorem processResult_corrected (s : Stream) (r : RecResult) :
    (processResult s r).corrected_time
      = retOf r - s.bridging_offset + STREAMING_LIMIT * s.restart_counter := by
  simp only [processResult]
  split_ifs <;> rfl

/-- On a final result whose transcript has no stop word, `processResult`
does not close a stream that was open. -/
theorem processResult_closed (s : Stream) (r : RecResult)
    (h : containsStopWord r.transcript = false) :
    (processResult s r).stream.closed = s.closed := by
  simp only [processResult, h]
  split_ifs with h1 h2
  · simp at h2
  · rfl
  · rfl

/-- Projection fact: `restartStep` resets `result_end_time`. -/
theorem restartStep_ret (s : Stream) : (restartStep s).result_end_time = 0 := by
  simp only [restartStep]
  split_ifs <;> rfl

/-- Projection fact: `restartStep` moves the current audio history to the previous slot. -/
theorem restartStep_last_audio (s : Stream) :
    (restartStep s).last_audio_input = s.audio_input := by
  simp only [restartStep]
  split_ifs <;> rfl

/-- Projection fact: `restartStep` empties the current audio history. -/
theorem restartStep_audio (s : Stream) : (restartStep s).audio_input = [] := by
  simp only [restartStep]
  split_ifs <;> rfl

/-- Projection fact: `restartStep` increments the restart counter. -/
theorem restartStep_counter (s : Stream) :
    (restartStep s).restart_counter = s.restart_counter + 1 := by
  simp only [restartStep]
  split_ifs <;> rfl

/-- Projection fact: `restartStep` flags a new stream. -/
theorem restartStep_new (s : Stream) : (restartStep s).new_stream = true := by
  simp only [restartStep]
  split_ifs <;> rfl

/-- Projection fact: `restartStep` leaves `bridging_offset` unchanged. -/
theorem restartStep_bridging (s : Stream) :
    (restartStep s).bridging_offset = s.bridging_offset := by
  simp only [restartStep]
  split_ifs <;> rfl

/-- Projection fact: `restartStep` leaves `is_final_end_time` unchanged. -/
theorem restartStep_final_end (s : Stream) :
    (restartStep s).is_final_end_time = s.is_final_end_time := by
  simp only [restartStep]
  split_ifs <;> rfl

/-- When the ended segment had a result, `restartStep` rolls
`final_request_end_time` to `is_final_end_time`. -/
theorem restartStep_freq_pos (s : Stream) (h : 0 < s.result_end_time) :
    (restartStep s).final_request_end_time = s.is_final_end_time := by
  simp only [restartStep]
  rw [if_pos h]

/-- When the ended segment had no positive result end time, `restartStep`
leaves `final_request_end_time` unchanged. -/
theorem restartStep_freq_nonpos (s : Stream) (h : ¬ 0 < s.result_end_time) :
    (restartStep s).final_request_end_time = s.final_request_end_time := by
  simp only [restartStep]
  rw [if_neg h]

/-- Projection fact: `bridgingStep` leaves `restart_counter` unchanged. -/
theorem bridgingStep_counter (s : Stream) :
    (bridgingStep s).1.restart_counter = s.restart_counter := by
  simp only [bridgingStep]
  split_ifs <;> rfl

/-- The recomputed bridging offset at the start of a new segment, when the
incoming offset is already within `[0, final_request_end_time]` (so the
clamps are the identity). -/
theorem bridgingStep_offset (s : Stream) (h1 : s.new_stream = true)
    (h2 : s.last_audio_input ≠ []) (h3 : 0 ≤ s.bridging_offset)
    (h4 : s.bridging_offset ≤ s.final_request_end_time) :
    (bridgingStep s).1.bridging_offset
      = pyRoundFrac
          (((s.last_audio_input.length : ℤ)
             - pyRoundFrac
                ((s.final_request_end_time - s.bridging_offset)
                  * (s.last_audio_input.length : ℤ)) STREAMING_LIMIT)
            * STREAMING_LIMIT)
          (s.last_audio_input.length : ℤ) := by
  simp only [bridgingStep]
  rw [if_pos ⟨h1, h2⟩, if_pos (show STREAMING_LIMIT ≠ 0 by decide),
    if_neg (not_lt.mpr h3), if_neg (not_lt.mpr h4)]

/-- The replay start index is at most the length of the previous history,
provided the clamped offset distance `d` is between `0` and the session
limit. -/
theorem chunks_le (n d : ℤ) (hn : 0 < n) (_hd0 : 0 ≤ d)
    (hdL : d ≤ STREAMING_LIMIT) :
    pyRoundFrac (d * n) STREAMING_LIMIT ≤ n := by
  obtain ⟨h1, h2⟩ := pyRoundFrac_bounds (d * n) STREAMING_LIMIT (by decide)
  have hdn : d * n ≤ STREAMING_LIMIT * n :=
    mul_le_mul_of_nonneg_right hdL hn.le
  by_contra h
  push_neg at h
  have h3 : n + 1 ≤ pyRoundFrac (d * n) STREAMING_LIMIT := h
  have h4 : 2 * STREAMING_LIMIT * (n + 1)
      ≤ 2 * STREAMING_LIMIT * pyRoundFrac (d * n) STREAMING_LIMIT :=
    mul_le_mul_of_nonneg_left h3 (by decide)
  have hL : (0:ℤ) < STREAMING_LIMIT := by decide
  nlinarith

/-- The recomputed bridging offset is nonnegative whenever the replay start
index does not exceed the history length. -/
theorem recompute_nonneg (n k : ℤ) (hn : 0 < n) (hk : k ≤ n) :
    0 ≤ pyRoundFrac ((n - k) * STREAMING_LIMIT) n := by
  obtain ⟨h1, h2⟩ := pyRoundFrac_bounds ((n - k) * STREAMING_LIMIT) n hn
  have hnk : 0 ≤ (n - k) * STREAMING_LIMIT :=
    mul_nonneg (sub_nonneg.mpr hk) (by decide)
  by_contra h
  push_neg at h
  have h3 : pyRoundFrac ((n - k) * STREAMING_LIMIT) n ≤ -1 := by omega
  have h4 : 2 * n * pyRoundFrac ((n - k) * STREAMING_LIMIT) n ≤ 2 * n * (-1) :=
    mul_le_mul_of_nonneg_left h3 (by positivity)
  linarith

/-- Upper bound on the recomputed bridging offset: it exceeds
`STREAMING_LIMIT - (F - b)` by at most half a chunk duration plus one half,
so any first post-restart end time `ret1` with `2*n*ret1 ≥ STREAMING_LIMIT + n`
dominates the loss. -/
theorem bridging_recompute_le (n F b ret1 : ℤ) (hn : 0 < n)
    (hdrift : STREAMING_LIMIT + n ≤ 2 * n * ret1) :
    pyRoundFrac ((n - pyRoundFrac ((F - b) * n) STREAMING_LIMIT) * STREAMING_LIMIT) n
      ≤ ret1 + STREAMING_LIMIT + b - F := by
  obtain ⟨hk1, hk2⟩ := pyRoundFrac_bounds ((F - b) * n) STREAMING_LIMIT (by decide)
  obtain ⟨hb1, hb2⟩ :=
    pyRoundFrac_bounds
      ((n - pyRoundFrac ((F - b) * n) STREAMING_LIMIT) * STREAMING_LIMIT) n hn
  have h2n : (0:ℤ) < 2 * n := by positivity
  refine (mul_le_mul_left h2n).mp ?_
  nlinarith

/-- The queue contents after a sequence of capture callbacks. -/
theorem foldl_fill_buffer_buff (t : Stream) (ds : List ℕ) :
    (ds.foldl fill_buffer t).buff = t.buff ++ ds.map Option.some := by
  induction ds generalizing t with
  | nil => simp
  | cons c ds ih =>
    rw [List.foldl_cons, ih]
    simp [fill_buffer]

/-- Capture callbacks never touch the `closed` flag. -/
theorem foldl_fill_buffer_closed (t : Stream) (ds : List ℕ) :
    (ds.foldl fill_buffer t).closed = t.closed := by
  induction ds generalizing t with
  | nil => rfl
  | cons c ds ih => simpa [List.foldl_cons, fill_buffer] using ih (fill_buffer t c)

/-- Once `closed` is set, the generator terminates before touching the
queue. -/
theorem generatorStep_closed (t : Stream) (h : t.closed = true) :
    generatorStep t = GenOutcome.terminated t := by
  simp only [generatorStep]
  rw [if_pos h]

/-- An open stream after `__enter__`, with all other `__init__` defaults. -/
def sOpen : Stream := { closed := false }

/-- A default (not yet entered) stream: `closed = true`, empty queue. -/
def sClosedQueue : Stream := {}

/-- Concrete state for the corrected-time example: `bridging_offset = 200`,
`restart_counter = 1`. -/
def sC2 : Stream := { closed := false, bridging_offset := 200, restart_counter := 1 }

/-- A final result with end time 5 s. -/
def rC2 : RecResult :=
  { transcript := "테스트", is_final := true, seconds := 5, micros := 0 }

/-- A final result (no stop word) with end time 5 s. -/
def rFinal5 : RecResult :=
  { transcript := "가나", is_final := true, seconds := 5, micros := 0 }

/-- A final result whose engine end time is zero. -/
def rFinal0 : RecResult :=
  { transcript := "다라", is_final := true, seconds := 0, micros := 0 }

/-- A final transcript containing the standalone stop word. -/
def rPleaseExit : RecResult :=
  { transcript := "please exit now", is_final := true, seconds := 3, micros := 0 }

/-- A final transcript containing `exiting` only. -/
def rExiting : RecResult :=
  { transcript := "exiting", is_final := true, seconds := 4, micros := 0 }

/-- Claim C2: for every received result, the corrected time equals
`result_end_time - bridging_offset + STREAMING_LIMIT * restart_counter`
(all read from the session state after the result is recorded), and with
`restart_counter = 1`, `result_end_time = 5000`, `bridging_offset = 200`
the computed corrected time is `244800`. -/
theorem c2_corrected_time_formula :
    (∀ (s : Stream) (r : RecResult),
      (processResult s r).corrected_time
        = (processResult s r).stream.result_end_time
          - (processResult s r).stream.bridging_offset
          + STREAMING_LIMIT * (processResult s r).stream.restart_counter)
    ∧ (processResult sC2 rC2).corrected_time = 244800 := by
  constructor
  · intro s r
    rw [processResult_corrected, processResult_ret, processResult_bridging,
      processResult_counter]
  · decide

/-- Claim C5, counterexample: a segment whose only result carries engine
end time zero leaves `result_end_time = 0`, so the restart does NOT roll
`final_request_end_time` to the `is_final_end_time` of the ended segment:
after the trace below, `final_request_end_time` is still `5000` while the
ended segment recorded `is_final_end_time = 0`. -/
theorem c5_counterexample :
    (restartStep (processResult (restartStep (processResult sOpen rFinal5).stream)
        rFinal0).stream).final_request_end_time = 5000
    ∧ (processResult (restartStep (processResult sOpen rFinal5).stream)
        rFinal0).stream.is_final_end_time = 0
    ∧ (5000 : ℤ) ≠ 0 := by
  decide

/-- Claim C5, amended: on restart, `result_end_time` resets to `0`, the
audio history buffers swap, and `restart_counter` increments by one,
unconditionally; `final_request_end_time` is rolled to the `is_final_end_time` of
the ended segment exactly when its `result_end_time` was
positive, and is left unchanged otherwise. -/
theorem c5_restart_effects (s : Stream) :
    (restartStep s).result_end_time = 0
    ∧ (restartStep s).last_audio_input = s.audio_input
    ∧ (restartStep s).audio_input = []
    ∧ (restartStep s).restart_counter = s.restart_counter + 1
    ∧ (0 < s.result_end_time →
        (restartStep s).final_request_end_time = s.is_final_end_time)
    ∧ (¬ 0 < s.result_end_time →
        (restartStep s).final_request_end_time = s.final_request_end_time) :=
  ⟨restartStep_ret s, restartStep_last_audio s, restartStep_audio s,
   restartStep_counter s, restartStep_freq_pos s, restartStep_freq_nonpos s⟩

/-- Witness for C5 at a concrete state with a positive result end time. -/
theorem c5_witness :
    (0:ℤ) < ({ result_end_time := 5, is_final_end_time := 7 } : Stream).result_end_time
    ∧ (restartStep { result_end_time := 5, is_final_end_time := 7 }).final_request_end_time
        = ({ result_end_time := 5, is_final_end_time := 7 } : Stream).is_final_end_time :=
  ⟨by decide,
   (c5_restart_effects { result_end_time := 5, is_final_end_time := 7 }).2.2.2.2.1
     (by decide)⟩

/-- Claim C6: processing a finalized result on an open session closes the
session exactly when the transcript matches `\b(exit|quit)\b`
case-insensitively. -/
theorem c6_stop_word_closes (s : Stream) (r : RecResult)
    (h1 : s.closed = false) (h2 : r.is_final = true) :
    (processResult s r).stream.closed = containsStopWord r.transcript := by
  simp only [processResult, h2, if_true]
  split_ifs with hstop
  · simpa using hstop.symm
  · simpa [h1] using (Bool.not_eq_true _).mp hstop |>.symm

/-- Witness for C6: "please exit now" closes the session; "exiting" does
not.  The extra conjuncts pin the Unicode boundary semantics: a keyword
abutting a Hangul word character is not a whole-word match, a
space-separated keyword in Korean text is, and the dotted capital I
matches `i` under `re.IGNORECASE`. -/
theorem c6_witness :
    sOpen.closed = false
    ∧ (processResult sOpen rPleaseExit).stream.closed = true
    ∧ (processResult sOpen rExiting).stream.closed = false
    ∧ containsStopWord "exit가" = false
    ∧ containsStopWord "가exit" = false
    ∧ containsStopWord "나가 exit 좀" = true
    ∧ containsStopWord "EXİT" = true :=
  ⟨rfl,
   (c6_stop_word_closes sOpen rPleaseExit rfl rfl).trans (by decide),
   (c6_stop_word_closes sOpen rExiting rfl rfl).trans (by decide),
   by decide, by decide, by decide, by decide⟩

/-- Claim C7, counterexample: pushing into a closed stream is not a no-op
on the queue contents — `_fill_buffer` enqueues unconditionally. -/
theorem c7_counterexample :
    sClosedQueue.closed = true
    ∧ (fill_buffer sClosedQueue 7).buff ≠ sClosedQueue.buff := by
  decide

/-- Claim C7, amended: pushes after closure still append their chunks to
the queue (the push is not a no-op on the queue contents), but once the
stream is closed the generator terminates without yielding, so no chunk
pushed after closure is ever delivered to the consumer. -/
theorem c7_closed_push_never_delivered (s : Stream) (cs : List ℕ)
    (h : s.closed = true) :
    (cs.foldl fill_buffer s).buff = s.buff ++ cs.map Option.some
    ∧ generatorStep (cs.foldl fill_buffer s)
        = GenOutcome.terminated (cs.foldl fill_buffer s) := by
  refine ⟨foldl_fill_buffer_buff s cs, generatorStep_closed _ ?_⟩
  rw [foldl_fill_buffer_closed]
  exact h

/-- Witness for C7 at a concrete closed stream and two pushed chunks. -/
theorem c7_witness :
    sClosedQueue.closed = true
    ∧ (([5, 6] : List ℕ).foldl fill_buffer sClosedQueue).buff
        = sClosedQueue.buff ++ ([5, 6] : List ℕ).map Option.some
    ∧ generatorStep (([5, 6] : List ℕ).foldl fill_buffer sClosedQueue)
        = GenOutcome.terminated (([5, 6] : List ℕ).foldl fill_buffer sClosedQueue) :=
  ⟨by decide,
   (c7_closed_push_never_delivered sClosedQueue [5, 6] (by decide)).1,
   (c7_closed_push_never_delivered sClosedQueue [5, 6] (by decide)).2⟩

/-- Core of the amended C4: the recomputed offset is nonnegative when
`0 ≤ F ≤ STREAMING_LIMIT`, for any incoming offset `b` (the clamps handle
`b` themselves). -/
theorem c4_core (n F b : ℤ) (hn : 0 < n) (h3 : 0 ≤ F)
    (h4 : F ≤ STREAMING_LIMIT) :
    0 ≤ pyRoundFrac
        ((n - pyRoundFrac
            ((F - (if (if b < 0 then 0 else b) > F then F else (if b < 0 then 0 else b))) * n)
            STREAMING_LIMIT) * STREAMING_LIMIT) n := by
  set b1 := if b < 0 then 0 else b with hb1d
  set b2 := if b1 > F then F else b1 with hb2d
  have hb1 : 0 ≤ b1 := by rw [hb1d]; split_ifs <;> omega
  have hd : 0 ≤ F - b2 ∧ F - b2 ≤ STREAMING_LIMIT := by
    rw [hb2d]; split_ifs <;> constructor <;> omega
  exact recompute_nonneg n _ hn (chunks_le n (F - b2) hn hd.1 hd.2)

/-- State for the C4 counterexample: one previous chunk,
`final_request_end_time = 100`, `bridging_offset = 0`. -/
def sC4 : Stream :=
  { closed := false, last_audio_input := [some 0], final_request_end_time := 100 }

/-- Claim C4, counterexample: starting from a state satisfying
`0 ≤ bridging_offset ≤ final_request_end_time` (here `0 ≤ 0 ≤ 100`), the
bridging recomputation sets `bridging_offset = 240000`, far above
`final_request_end_time = 100` — the upper bound is not preserved. -/
theorem c4_counterexample :
    (0 ≤ sC4.bridging_offset ∧ sC4.bridging_offset ≤ sC4.final_request_end_time)
    ∧ (bridgingStep sC4).1.bridging_offset = 240000
    ∧ (bridgingStep sC4).1.final_request_end_time = 100
    ∧ ¬ (bridgingStep sC4).1.bridging_offset
          ≤ (bridgingStep sC4).1.final_request_end_time := by
  decide

/-- Claim C4, amended: after the bridging recomputation the lower bound
`0 ≤ bridging_offset` still holds whenever
`0 ≤ final_request_end_time ≤ STREAMING_LIMIT` (for any incoming offset —
the clamps handle out-of-range inputs); the upper bound
`bridging_offset ≤ final_request_end_time` is not an invariant of this
step. -/
theorem c4_bridging_offset_nonneg (s : Stream)
    (h1 : s.new_stream = true) (h2 : s.last_audio_input ≠ [])
    (h3 : 0 ≤ s.final_request_end_time)
    (h4 : s.final_request_end_time ≤ STREAMING_LIMIT) :
    0 ≤ (bridgingStep s).1.bridging_offset := by
  have hn : (0:ℤ) < (s.last_audio_input.length : ℤ) := by
    exact_mod_cast List.length_pos.mpr h2
  simp only [bridgingStep]
  rw [if_pos ⟨h1, h2⟩, if_pos (show STREAMING_LIMIT ≠ 0 by decide)]
  exact c4_core (s.last_audio_input.length : ℤ) s.final_request_end_time
    s.bridging_offset hn h3 h4

/-- Witness for C4 at a concrete pre-restart state. -/
theorem c4_witness :
    (sC4.new_stream = true ∧ sC4.last_audio_input ≠ []
      ∧ 0 ≤ sC4.final_request_end_time
      ∧ sC4.final_request_end_time ≤ STREAMING_LIMIT)
    ∧ 0 ≤ (bridgingStep sC4).1.bridging_offset :=
  ⟨⟨by decide, by decide, by decide, by decide⟩,
   c4_bridging_offset_nonneg sC4 (by decide) (by decide) (by decide) (by decide)⟩

/-- State for the C3 cross-restart witness. -/
def sW3 : Stream :=
  { closed := false, bridging_offset := 100, audio_input := [some 1, some 2] }

/-- First result of the new segment in the C3 witness (end time 120 s). -/
def rW3 : RecResult :=
  { transcript := "다음", is_final := true, seconds := 120, micros := 0 }

/-- Claim C3: corrected timestamps are monotone across a logical session.
Within one restart epoch, consecutive finalized results with non-decreasing
engine end times have non-decreasing corrected times.  Across a restart
(restart step followed by the bridging recomputation of the new segment),
the first post-restart corrected time dominates the last pre-restart
finalized corrected time, provided the pre-restart offset was within
`[0, is_final_end_time]`, the ended segment had a positive result end time
and a nonempty audio history of `n` chunks, and the first post-restart end
time `retOf r1` satisfies `STREAMING_LIMIT + n ≤ 2*n*retOf r1` (i.e. it is
at least half a chunk duration plus one half millisecond — the premise that
the session limit is large relative to per-result drift). -/
theorem c3_corrected_time_monotone :
    (∀ (s : Stream) (r1 r2 : RecResult),
      r1.is_final = true → r2.is_final = true →
      retOf r1 ≤ retOf r2 →
      (processResult s r1).corrected_time
        ≤ (processResult (processResult s r1).stream r2).corrected_time)
    ∧ (∀ (s0 : Stream) (r0 r1 : RecResult),
      r0.is_final = true →
      containsStopWord r0.transcript = false →
      0 < retOf r0 →
      0 ≤ s0.bridging_offset →
      s0.bridging_offset ≤ retOf r0 →
      s0.audio_input ≠ [] →
      STREAMING_LIMIT + (s0.audio_input.length : ℤ)
        ≤ 2 * (s0.audio_input.length : ℤ) * retOf r1 →
      (processResult s0 r0).corrected_time
        ≤ (processResult
            (bridgingStep (restartStep (processResult s0 r0).stream)).1
            r1).corrected_time) := by
  constructor
  · intro s r1 r2 _ _ hle
    rw [processResult_corrected, processResult_corrected,
      processResult_bridging, processResult_counter]
    linarith
  · intro s0 r0 r1 hf _hstop hret0 hb0 hb0le haudio hdrift
    set o0s := (processResult s0 r0).stream with ho0
    have hb : o0s.bridging_offset = s0.bridging_offset := by
      rw [ho0, processResult_bridging]
    have hc : o0s.restart_counter = s0.restart_counter := by
      rw [ho0, processResult_counter]
    have ha : o0s.audio_input = s0.audio_input := by
      rw [ho0, processResult_audio]
    have hr : o0s.result_end_time = retOf r0 := by
      rw [ho0, processResult_ret]
    have he : o0s.is_final_end_time = retOf r0 := by
      rw [ho0, processResult_final_end s0 r0 hf]
    set s2 := restartStep o0s with hs2
    have h2new : s2.new_stream = true := by rw [hs2]; exact restartStep_new o0s
    have h2last : s2.last_audio_input = s0.audio_input := by
      rw [hs2, restartStep_last_audio, ha]
    have h2b : s2.bridging_offset = s0.bridging_offset := by
      rw [hs2, restartStep_bridging, hb]
    have h2F : s2.final_request_end_time = retOf r0 := by
      rw [hs2, restartStep_freq_pos o0s (by rw [hr]; exact hret0), he]
    have h2c : s2.restart_counter = s0.restart_counter + 1 := by
      rw [hs2, restartStep_counter, hc]
    have h2ne : s2.last_audio_input ≠ [] := by rw [h2last]; exact haudio
    have hn : (0:ℤ) < (s2.last_audio_input.length : ℤ) := by
      rw [h2last]
      exact_mod_cast List.length_pos.mpr haudio
    have hoff := bridgingStep_offset s2 h2new h2ne
      (by rw [h2b]; exact hb0) (by rw [h2b, h2F]; exact hb0le)
    have hcnt := bridgingStep_counter s2
    rw [processResult_corrected s0 r0, processResult_corrected _ r1, hoff,
      hcnt, h2c, h2last, h2b, h2F]
    have hkey := bridging_recompute_le ((s0.audio_input.length : ℤ))
      (retOf r0) s0.bridging_offset (retOf r1)
      (by exact_mod_cast List.length_pos.mpr haudio) hdrift
    linarith

/-- Witness for C3: a within-epoch pair and a concrete restart crossing. -/
theorem c3_witness :
    ((processResult sOpen rFinal5).corrected_time
      ≤ (processResult (processResult sOpen rFinal5).stream rC2).corrected_time)
    ∧ ((processResult sW3 rFinal5).corrected_time
      ≤ (processResult
          (bridgingStep (restartStep (processResult sW3 rFinal5).stream)).1
          rW3).corrected_time) :=
  ⟨c3_corrected_time_monotone.1 sOpen rFinal5 rC2 rfl rfl (by decide),
   c3_corrected_time_monotone.2 sW3 rFinal5 rW3 rfl (by decide) (by decide)
     (by decide) (by decide) (by decide) (by decide)⟩

/-- A configuration with the delivery endpoint and key set. -/
def cfgEx : Config :=
  { api_base_url := some "http://localhost:8000/translations",
    api_key := some "k" }

/-- A configuration with `API_BASE_URL` unset. -/
def cfgNone : Config := { api_base_url := none, api_key := none }

/-- An HTTP collaborator that always answers 200. -/
def httpOk : Payload → HttpResult := fun _ => .response 200

/-- An HTTP collaborator that always answers 201. -/
def http201 : Payload → HttpResult := fun _ => .response 201

/-- An HTTP collaborator that always raises. -/
def httpExn : Payload → HttpResult := fun _ => .exn "boom"

/-- Claim C1, counterexample: with corrected time `244800` computed by the
Relay and wall clock `999` at job start, the posted JSON body carries
`timestamp = 999`, not the corrected time. -/
theorem c1_counterexample :
    (processResult sC2 rC2).corrected_time = 244800
    ∧ (finalizeJob cfgEx (fun _ => Except.ok "訳") 999 httpOk rC2.transcript
        (processResult sC2 rC2).corrected_time).posts.map
          (fun p => p.1.timestamp) = [999]
    ∧ (999 : ℤ) ≠ 244800 := by
  decide

/-- Claim C1, amended: the `timestamp` field of the JSON body equals the wall
clock read at the start of the delivery job (`int(time.time()*1000)`); the
corrected time passed to the job appears only in the console lines. -/
theorem c1_delivery_timestamp_is_wall_clock (cfg : Config) (now : ℤ)
    (http : Payload → HttpResult) (translated korean : String) (ts : ℤ)
    (h : pyTruthy cfg.api_base_url = true) :
    (print_translation cfg now http translated korean ts).posts.map
        (fun p => p.1.timestamp) = [now]
    ∧ (print_translation cfg now http translated korean ts).writes.take 3
        = [YELLOW,
           toString ts ++ ": 韓国語: " ++ korean ++ "\n",
           toString ts ++ ": 翻訳: " ++ translated ++ "\n"] := by
  simp only [print_translation]
  rw [if_pos h]
  cases hh : http (Payload.mk now translated korean) with
  | response status => by_cases hs : status = 200 <;> simp [hs]
  | exn e => simp

/-- Witness for C1 at a concrete configuration and clock. -/
theorem c1_witness :
    pyTruthy cfgEx.api_base_url = true
    ∧ (print_translation cfgEx 999 httpOk "訳文" "原文" 244800).posts.map
        (fun p => p.1.timestamp) = [999]
    ∧ (print_translation cfgEx 999 httpOk "訳文" "原文" 244800).writes.take 3
        = [YELLOW,
           toString (244800 : ℤ) ++ ": 韓国語: " ++ "原文" ++ "\n",
           toString (244800 : ℤ) ++ ": 翻訳: " ++ "訳文" ++ "\n"] :=
  ⟨by decide,
   (c1_delivery_timestamp_is_wall_clock cfgEx 999 httpOk "訳文" "原文" 244800
     (by decide)).1,
   (c1_delivery_timestamp_is_wall_clock cfgEx 999 httpOk "訳文" "原文" 244800
     (by decide)).2⟩

/-- Claim C8: when the translation collaborator fails, the job substitutes
the sentinel error string, which is nonempty, and still performs exactly
one delivery attempt whose `translation` field is that sentinel. -/
theorem c8_translation_failure_still_delivers (cfg : Config)
    (collab : String → Except String String) (now : ℤ)
    (http : Payload → HttpResult) (transcript : String) (ts : ℤ) (e : String)
    (h : pyTruthy cfg.api_base_url = true)
    (hfail : collab transcript = Except.error e) :
    (finalizeJob cfg collab now http transcript ts).posts.length = 1
    ∧ (finalizeJob cfg collab now http transcript ts).posts.map
        (fun p => p.1.translation) = ["翻訳エラー: " ++ e]
    ∧ ("翻訳エラー: " ++ e) ≠ "" := by
  have htr : translate_text collab transcript = "翻訳エラー: " ++ e := by
    simp [translate_text, hfail]
  have hne : ("翻訳エラー: " ++ e) ≠ "" := by
    intro hcontra
    have hlen := congrArg String.length hcontra
    rw [String.length_append] at hlen
    have h7 : ("翻訳エラー: ").length = 7 := rfl
    have h0 : ("" : String).length = 0 := rfl
    omega
  refine ⟨?_, ?_, hne⟩ <;>
    · simp only [finalizeJob, htr, print_translation]
      rw [if_pos h]
      cases hh : http (Payload.mk now ("翻訳エラー: " ++ e) transcript) with
      | response status => by_cases hs : status = 200 <;> simp [hs]
      | exn ex => simp

/-- Witness for C8 with an always-failing translator. -/
theorem c8_witness :
    pyTruthy cfgEx.api_base_url = true
    ∧ (finalizeJob cfgEx (fun _ => Except.error "err") 1000 httpOk "원문" 7).posts.length = 1
    ∧ (finalizeJob cfgEx (fun _ => Except.error "err") 1000 httpOk "원문" 7).posts.map
        (fun p => p.1.translation) = ["翻訳エラー: " ++ "err"]
    ∧ ("翻訳エラー: " ++ "err") ≠ "" :=
  ⟨by decide,
   (c8_translation_failure_still_delivers cfgEx (fun _ => Except.error "err")
     1000 httpOk "원문" 7 "err" (by decide) rfl).1,
   (c8_translation_failure_still_delivers cfgEx (fun _ => Except.error "err")
     1000 httpOk "원문" 7 "err" (by decide) rfl).2.1,
   (c8_translation_failure_still_delivers cfgEx (fun _ => Except.error "err")
     1000 httpOk "원문" 7 "err" (by decide) rfl).2.2⟩

/-- Claim C9, counterexample: a 201 response (a 2xx status) is NOT treated
as success — the job records the failure line, because the source tests
`status_code != 200`. -/
theorem c9_counterexample :
    ((200 : ℤ) ≤ 201 ∧ (201 : ℤ) < 300)
    ∧ ("エラー: 送信失敗（ステータスコード: " ++ toString (201 : ℤ) ++ "）\n")
        ∈ (print_translation cfgEx 1000 http201 "t" "k" 5).writes := by
  decide

/-- Claim C9, amended: each job performs exactly one POST attempt,
regardless of outcome, and no error is recorded exactly when the response
status is exactly `200` (any other status — including other 2xx codes —
or a raised exception is logged). -/
theorem c9_single_post_success_only_200 (cfg : Config) (now : ℤ)
    (http : Payload → HttpResult) (tr ko : String) (ts : ℤ)
    (h : pyTruthy cfg.api_base_url = true) :
    (print_translation cfg now http tr ko ts).posts.length = 1
    ∧ ((print_translation cfg now http tr ko ts).writes.length = 3
        ↔ http { timestamp := now, translation := tr, korean_text := ko }
            = HttpResult.response 200) := by
  simp only [print_translation]
  rw [if_pos h]
  cases hh : http (Payload.mk now tr ko) with
  | response status =>
    by_cases hs : status = 200
    · subst hs; simp
    · simp [hs]
  | exn e => simp

/-- Witness for C9 at a concrete configuration with a 200 response. -/
theorem c9_witness :
    pyTruthy cfgEx.api_base_url = true
    ∧ (print_translation cfgEx 1000 httpOk "t" "k" 5).posts.length = 1
    ∧ ((print_translation cfgEx 1000 httpOk "t" "k" 5).writes.length = 3
        ↔ httpOk { timestamp := 1000, translation := "t", korean_text := "k" }
            = HttpResult.response 200) :=
  ⟨by decide,
   (c9_single_post_success_only_200 cfgEx 1000 httpOk "t" "k" 5 (by decide)).1,
   (c9_single_post_success_only_200 cfgEx 1000 httpOk "t" "k" 5 (by decide)).2⟩

/-- Claim C10: with `API_BASE_URL` unset the job makes no delivery attempt
and only writes the two console lines; with it set, a raised exception in
the HTTP call is caught by the `try`/`except` (embedded as the total match
on `HttpResult`: every branch returns a normal outcome, so nothing
propagates to the worker pool), the attempt is counted and the error line
is logged. -/
theorem c10_no_url_no_post_and_exn_caught (cfg : Config) (now : ℤ)
    (http : Payload → HttpResult) (tr ko : String) (ts : ℤ) :
    (cfg.api_base_url = none →
      (print_translation cfg now http tr ko ts).posts = []
      ∧ (print_translation cfg now http tr ko ts).writes
          = [YELLOW,
             toString ts ++ ": 韓国語: " ++ ko ++ "\n",
             toString ts ++ ": 翻訳: " ++ tr ++ "\n"])
    ∧ (∀ e : String,
        pyTruthy cfg.api_base_url = true →
        http { timestamp := now, translation := tr, korean_text := ko }
          = HttpResult.exn e →
        (print_translation cfg now http tr ko ts).posts.length = 1
        ∧ (print_translation cfg now http tr ko ts).writes
            = [YELLOW,
               toString ts ++ ": 韓国語: " ++ ko ++ "\n",
               toString ts ++ ": 翻訳: " ++ tr ++ "\n",
               RED, "エラー: 送信中に例外が発生: " ++ e ++ "\n"]) := by
  constructor
  · intro hnone
    have hfalse : pyTruthy cfg.api_base_url = false := by rw [hnone]; rfl
    simp only [print_translation]
    rw [if_neg (by simp [hfalse])]
    exact ⟨rfl, rfl⟩
  · intro e h hexn
    simp only [print_translation]
    rw [if_pos h, hexn]
    exact ⟨rfl, rfl⟩

/-- Witness for C10: unset endpoint makes no POST; a raising collaborator
is caught and logged. -/
theorem c10_witness :
    cfgNone.api_base_url = none
    ∧ (print_translation cfgNone 5 httpExn "t" "k" 9).posts = []
    ∧ (print_translation cfgEx 5 httpExn "t" "k" 9).writes
        = [YELLOW,
           toString (9 : ℤ) ++ ": 韓国語: " ++ "k" ++ "\n",
           toString (9 : ℤ) ++ ": 翻訳: " ++ "t" ++ "\n",
           RED, "エラー: 送信中に例外が発生: " ++ "boom" ++ "\n"] :=
  ⟨rfl,
   ((c10_no_url_no_post_and_exn_caught cfgNone 5 httpExn "t" "k" 9).1 rfl).1,
   ((c10_no_url_no_post_and_exn_caught cfgEx 5 httpExn "t" "k" 9).2 "boom"
     (by decide) rfl).2⟩

end Limbus
